import Mathlib

/-
Verification of the key/value backend repository (BoltDB and LevelDB
adapters behind one DB interface).

The repository ships several generations of the LevelDB adapter inside
src/leveldb.go (three concatenated revisions, called v1, v2 and v3 below
in source order; v2 and v3 have identical transaction code) and two
generations of the BoltDB adapter (src/boltdb.go, and the documented
revision in src/unnamed/part_001).

Modelling conventions:
  - byte slices are lists of naturals (only equality and unsigned
    lexicographic order matter to the claims);
  - native engine primitives that the design treats as external and
    already correct (leveldb_get, bolt Bucket.Get / Put / Delete, cursor
    stepping over the sorted committed contents, bolt tx.WriteTo) are
    modelled as operations on an association list / sorted list;
  - Go runtime faults (index out of range from taking the address of the
    first element of an empty slice, unlocking an unlocked sync.Mutex,
    explicit panic calls) are modelled by an error layer, Except GoPanic;
  - Go error returns are modelled by Except String (errors carry their
    message, matching the string-backed Error and StorageError types of
    the repository).
-/

namespace Backend

/-- Byte strings (Go byte slices) modelled as lists of naturals. -/
abbrev Bytes := List Nat

/-- Go runtime faults and native crashes observed by the embedding:
index-out-of-range panics from indexing an empty slice, the fatal error
raised by unlocking an unlocked sync.Mutex, and explicit panic messages
or native undefined behaviour. -/
inductive GoPanic where
  | indexOutOfRange
  | unlockOfUnlockedMutex
  | message (s : String)
deriving DecidableEq, Repr

instance {ε α : Type} [DecidableEq ε] [DecidableEq α] : DecidableEq (Except ε α) := fun a b =>
  match a, b with
  | .ok x, .ok y =>
    if h : x = y then isTrue (by rw [h]) else isFalse (fun hc => h (Except.ok.injEq .. ▸ hc))
  | .error x, .error y =>
    if h : x = y then isTrue (by rw [h]) else isFalse (fun hc => h (Except.error.injEq .. ▸ hc))
  | .ok _, .error _ => isFalse (fun hc => Except.noConfusion hc)
  | .error _, .ok _ => isFalse (fun hc => Except.noConfusion hc)

/-- Go errors are modelled by their message string (the repository wraps
everything in string-backed error types Error and StorageError). -/
abbrev GoErr := String

/-- Sentinel declared in the interface file of the repository:
const ErrNotFound Error = Error("key not found"). -/
def errNotFound : GoErr := "key not found"

/-- Committed key/value contents visible through a LevelDB snapshot or a
bolt bucket: an association list from key to value, first match wins.
When a claim needs the ordering law the list is the sorted contents. -/
abbrev Snap := List (Bytes × Bytes)

/-- Models the native point-lookup primitives, leveldb_get and bolt
Bucket.Get, which the design treats as already-correct external calls:
the value stored under the key, if any. -/
def lookupKV : Snap → Bytes → Option Bytes
  | [], _ => none
  | (k, v) :: rest, key => if k = key then some v else lookupKV rest key

/-- Unsigned lexicographic byte order used by both engines (memcmp order,
a strict prefix sorts first), as computed by bytes.Compare. -/
def bytesLt : Bytes → Bytes → Bool
  | _, [] => false
  | [], _ :: _ => true
  | a :: as, b :: bs => if a < b then true else if b < a then false else bytesLt as bs

/-- Models leveldb_iter_seek followed by reading the current entry, on a
snapshot whose sorted committed contents are the given list: the first
entry whose key is not below the target, or none when the iterator lands
past the end and is no longer valid. -/
def seekFirstGe : Snap → Bytes → Option (Bytes × Bytes)
  | [], _ => none
  | e :: rest, target =>
    if bytesLt e.1 target then seekFirstGe rest target else some e

/-- Operations recorded in a leveldb_writebatch_t by the transaction. -/
inductive BatchOp where
  | putOp (key value : Bytes)
  | delOp (key : Bytes)
deriving DecidableEq, Repr

/-- Overlay lookup: the Go map modified, of type map string to byte
slice, where a nil slice (a tombstone in v1) is modelled as none. -/
def overlayLookup : List (Bytes × Option Bytes) → Bytes → Option (Option Bytes)
  | [], _ => none
  | (k, v) :: rest, key => if k = key then some v else overlayLookup rest key

/-- State of a levelTxn: the contents the transaction reads through its
read options (its snapshot view), the overlay map modified, and the
write batch. Shared by the v1 and the v2/v3 revisions, whose method
bodies differ. -/
structure LevelTxn where
  snap : Snap
  modified : List (Bytes × Option Bytes)
  batch : List BatchOp
deriving DecidableEq, Repr

/-- levelTxn.Get of the v2/v3 revision (src/leveldb.go lines 1042-1068):
consult modified first and return its entry with a nil error; otherwise
create an iterator, take the address of the first key byte (panics on an
empty key), seek, and return the entry when the landed key compares
equal, else return nil value and nil error. No ErrNotFound is produced
and no tombstone case exists. -/
def levelTxnGet_v3 (t : LevelTxn) (key : Bytes) :
    Except GoPanic (Except GoErr (Option Bytes)) :=
  match overlayLookup t.modified key with
  | some v => .ok (.ok v)
  | none =>
    if key = [] then .error .indexOutOfRange
    else
      .ok (.ok (match seekFirstGe t.snap key with
        | none => none
        | some e => if e.1 = key then some e.2 else none))

/-- levelIterator.get of the v1 revision (src/leveldb.go lines 182-205):
seek to the key (panics on an empty key), return ErrNotFound when the
iterator is invalid or lands on a different key, else the value. -/
def levelIterGetKey (snap : Snap) (key : Bytes) :
    Except GoPanic (Except GoErr Bytes) :=
  if key = [] then .error .indexOutOfRange
  else
    match seekFirstGe snap key with
    | none => .ok (.error errNotFound)
    | some e => if e.1 = key then .ok (.ok e.2) else .ok (.error errNotFound)

/-- levelTxn.Get of the v1 revision (src/leveldb.go lines 289-299):
consult modified first; a nil entry is a tombstone reported as
ErrNotFound, a value is returned directly; otherwise fall back to the
iterator lookup against the bound view. -/
def levelTxnGet_v1 (t : LevelTxn) (key : Bytes) :
    Except GoPanic (Except GoErr (Option Bytes)) :=
  match overlayLookup t.modified key with
  | some none => .ok (.error errNotFound)
  | some (some v) => .ok (.ok (some v))
  | none => (levelIterGetKey t.snap key).map (fun r => r.map some)

/-- levelTxn.Put, identical in all revisions (src/leveldb.go lines
1070-1079): take the address of the first byte of the key and of the
value (panics when either slice is empty), append a put record to the
write batch, and set modified of key to the value. -/
def levelTxnPut (t : LevelTxn) (key value : Bytes) :
    Except GoPanic (LevelTxn × Except GoErr Unit) :=
  if key = [] then .error .indexOutOfRange
  else if value = [] then .error .indexOutOfRange
  else .ok ({ t with
                batch := t.batch ++ [.putOp key value],
                modified := (key, some value) :: t.modified },
            .ok ())

/-- levelTxn.Delete of the v1 revision (src/leveldb.go lines 312-319):
take the address of the first key byte (panics on an empty key), append
a delete record to the write batch, and set modified of key to nil. -/
def levelTxnDelete_v1 (t : LevelTxn) (key : Bytes) :
    Except GoPanic (LevelTxn × Except GoErr Unit) :=
  if key = [] then .error .indexOutOfRange
  else .ok ({ t with
                batch := t.batch ++ [.delOp key],
                modified := (key, none) :: t.modified },
            .ok ())

/-- levelTxn.Delete of the v2/v3 revision (src/leveldb.go lines
1081-1083): the body is only a nil return; neither the write batch nor
the overlay is touched. -/
def levelTxnDelete_v3 (t : LevelTxn) (key : Bytes) : LevelTxn × Except GoErr Unit :=
  (t, .ok ())

/-- Models the native bolt Bucket.Put primitive (external, treated as
correct): the new binding shadows any previous one, and lookupKV takes
the first match, so prepending is observationally the replacement. -/
def bucketPut (b : Snap) (key value : Bytes) : Snap := (key, value) :: b

/-- Models the native bolt Bucket.Delete primitive (external, treated as
correct): every binding of the key is removed. -/
def bucketDelete : Snap → Bytes → Snap
  | [], _ => []
  | (k, v) :: rest, key =>
    if k = key then bucketDelete rest key else (k, v) :: bucketDelete rest key

/-- boltTxn.Get of src/boltdb.go (lines 176-181), on an open
transaction: return the bucket lookup with a nil error, so an absent key
yields nil value and nil error. -/
def boltTxnGet_v1 (b : Snap) (key : Bytes) : Except GoErr (Option Bytes) :=
  .ok (lookupKV b key)

/-- boltTxn.Get of src/unnamed/part_001 (lines 161-170), on an open
transaction: a nil bucket lookup is surfaced as the ErrNotFound
sentinel, a value is returned directly. -/
def boltTxnGet_v2 (b : Snap) (key : Bytes) : Except GoErr (Option Bytes) :=
  match lookupKV b key with
  | none => .error errNotFound
  | some v => .ok (some v)

/-- Composition used by the read-your-writes claim: levelTxn.Put followed
by levelTxn.Get (v2/v3 revision) on the same key. -/
def levelPutThenGet (t : LevelTxn) (key value : Bytes) :
    Except GoPanic (Except GoErr (Option Bytes)) :=
  match levelTxnPut t key value with
  | .error p => .error p
  | .ok (t1, _) => levelTxnGet_v3 t1 key

/-- Composition used by the read-your-writes claim on the bolt side:
boltTxn.Put (which delegates to the native Bucket.Put) followed by
boltTxn.Get of src/boltdb.go on the same key. -/
def boltPutThenGet (b : Snap) (key value : Bytes) : Except GoErr (Option Bytes) :=
  boltTxnGet_v1 (bucketPut b key value) key

/-- Claim C1 (code bug): in the v2/v3 LevelDB transaction, Delete is a
no-op, so Delete(k) then Get(k) returns the stale snapshot value with a
nil error instead of reporting not-found. On the store holding key 97
with value 120, deleting key 97 and reading it back yields the value.
The part_001 bolt transaction, by contrast, reports ErrNotFound after a
delete, as the claim demands. -/
theorem c1_delete_then_get_returns_stale_value :
    levelTxnGet_v3 (levelTxnDelete_v3 ⟨[([97], [120])], [], []⟩ [97]).1 [97]
        = .ok (.ok (some [120])) ∧
    boltTxnGet_v2 (bucketDelete [([97], [120])] [97]) [97] = .error errNotFound := by
  constructor <;> rfl

/-- Claim C2 counterexample: with a zero-length key, levelTxn.Put takes
the address of the first key byte and panics, so Put then Get does not
return the value; the claim quantifies over every key and value. -/
theorem c2_empty_key_put_panics :
    levelPutThenGet ⟨[], [], []⟩ [] [5] = .error GoPanic.indexOutOfRange ∧
    levelPutThenGet ⟨[], [], []⟩ [] [5] ≠ .ok (.ok (some [5])) := by
  refine ⟨rfl, ?_⟩
  decide

/-- Claim C2 (amended): for every open transaction and every non-empty
key and non-empty value (the LevelDB Put panics on zero-length inputs),
Put(k, v) then Get(k) within the same transaction returns v before any
commit: the LevelDB overlay is consulted before the snapshot, and the
bolt transaction reads its own bucket. -/
theorem c2_read_your_writes (snap : Snap) (m : List (Bytes × Option Bytes))
    (batch : List BatchOp) (b : Snap) (key value : Bytes)
    (hk : key ≠ []) (hv : value ≠ []) :
    levelPutThenGet ⟨snap, m, batch⟩ key value = .ok (.ok (some value)) ∧
    boltPutThenGet b key value = .ok (some value) := by
  constructor
  · simp [levelPutThenGet, levelTxnPut, hk, hv, levelTxnGet_v3, overlayLookup]
  · simp [boltPutThenGet, boltTxnGet_v1, bucketPut, lookupKV]

/-- Witness for claim C2 at a concrete input. -/
theorem c2_read_your_writes_witness :
    (([1] : Bytes) ≠ [] ∧ ([2] : Bytes) ≠ []) ∧
    (levelPutThenGet ⟨[], [], []⟩ [1] [2] = .ok (.ok (some [2])) ∧
      boltPutThenGet [] [1] [2] = .ok (some [2])) :=
  ⟨⟨by decide, by decide⟩,
    c2_read_your_writes [] [] [] [] [1] [2] (by decide) (by decide)⟩

/-- Helper: an entry returned by the seek primitive is an entry of the
snapshot it ran over. -/
theorem seekFirstGe_mem {s : Snap} {target : Bytes} {e : Bytes × Bytes}
    (h : seekFirstGe s target = some e) : e ∈ s := by
  induction s with
  | nil => simp [seekFirstGe] at h
  | cons hd tl ih =>
    rw [seekFirstGe] at h
    by_cases hlt : bytesLt hd.1 target
    · rw [if_pos hlt] at h
      exact List.mem_cons_of_mem hd (ih h)
    · rw [if_neg hlt] at h
      injection h with h2
      subst h2
      exact List.mem_cons_self hd tl

/-- Claim C7 counterexample: on a view that does not contain key 1, the
v2/v3 levelTxn.Get and the src/boltdb.go boltTxn.Get both return a nil
value together with a nil error, not an ErrNotFound-style sentinel as
the claim states. -/
theorem c7_absent_key_silent_nil_nil :
    levelTxnGet_v3 ⟨[([0], [9])], [], []⟩ [1] = .ok (.ok none) ∧
    boltTxnGet_v1 [([0], [9])] [1] = .ok none := by
  constructor <;> rfl

/-- Claim C7 (amended): for every non-empty key absent from a
transaction's view (not in the overlay, not in the bound snapshot or
bucket), the v1 levelTxn.Get and the part_001 boltTxn.Get surface the
explicit ErrNotFound sentinel, while the v2/v3 levelTxn.Get and the
src/boltdb.go boltTxn.Get return a silent nil value with nil error. -/
theorem c7_not_found_contract (snap : Snap) (m : List (Bytes × Option Bytes))
    (batch : List BatchOp) (b : Snap) (key : Bytes)
    (hk : key ≠ [])
    (hsnap : ∀ e ∈ snap, e.1 ≠ key)
    (hm : overlayLookup m key = none)
    (hb : lookupKV b key = none) :
    levelTxnGet_v1 ⟨snap, m, batch⟩ key = .ok (.error errNotFound) ∧
    levelTxnGet_v3 ⟨snap, m, batch⟩ key = .ok (.ok none) ∧
    boltTxnGet_v2 b key = .error errNotFound ∧
    boltTxnGet_v1 b key = .ok none := by
  have hseek : ∀ e, seekFirstGe snap key = some e → e.1 ≠ key := by
    intro e he
    exact hsnap e (seekFirstGe_mem he)
  refine ⟨?_, ?_, ?_, ?_⟩
  · rw [levelTxnGet_v1]
    simp only [hm]
    rw [levelIterGetKey, if_neg hk]
    cases hs : seekFirstGe snap key with
    | none => rfl
    | some e => simp [hseek e hs, Except.map]
  · rw [levelTxnGet_v3]
    simp only [hm]
    rw [if_neg hk]
    cases hs : seekFirstGe snap key with
    | none => rfl
    | some e => simp [hseek e hs]
  · rw [boltTxnGet_v2, hb]
  · rw [boltTxnGet_v1, hb]

/-- Witness for claim C7 at a concrete input. -/
theorem c7_not_found_contract_witness :
    (([1] : Bytes) ≠ [] ∧ (∀ e ∈ ([([0], [9])] : Snap), e.1 ≠ [1]) ∧
      overlayLookup [] [1] = none ∧ lookupKV [([0], [9])] [1] = none) ∧
    (levelTxnGet_v1 ⟨[([0], [9])], [], []⟩ [1] = .ok (.error errNotFound) ∧
      levelTxnGet_v3 ⟨[([0], [9])], [], []⟩ [1] = .ok (.ok none) ∧
      boltTxnGet_v2 [([0], [9])] [1] = .error errNotFound ∧
      boltTxnGet_v1 [([0], [9])] [1] = .ok none) :=
  ⟨⟨by decide, by decide, by decide, by decide⟩,
    c7_not_found_contract [([0], [9])] [] [] [([0], [9])] [1]
      (by decide) (by decide) (by decide) (by decide)⟩

/-- LevelDB.BatchGet of the v2/v3 revision (src/leveldb.go lines 864-894
and 492-520, identical bodies): create one snapshot for the whole call,
then for each key take the address of its first byte (panics on an empty
key) and run leveldb_get against the snapshot. When the value is nil the
function returns the result of the callback immediately, ending the
iteration; when a value is present the callback runs and a callback
error is returned, otherwise the loop continues. The Go callback may
carry side effects, modelled by threading a caller state through it. -/
def levelBatchGet {σ : Type} (store : Snap) (keys : List Bytes)
    (getter : σ → Bytes → Option Bytes → σ × Except GoErr Unit) (s : σ) :
    Except GoPanic (σ × Except GoErr Unit) :=
  match keys with
  | [] => .ok (s, .ok ())
  | key :: rest =>
    if key = [] then .error .indexOutOfRange
    else
      match lookupKV store key with
      | none =>
        let r := getter s key none
        .ok (r.1, r.2)
      | some v =>
        let r := getter s key (some v)
        match r.2 with
        | .error e => .ok (r.1, .error e)
        | .ok () => levelBatchGet store rest getter r.1

/-- BoltDB.BatchGet (src/boltdb.go lines 41-57): inside one read
transaction, for each key run the bucket lookup and invoke the callback
with the value or with nil; the loop breaks only when the callback
returns an error, which is then returned. -/
def boltBatchGet {σ : Type} (store : Snap) (keys : List Bytes)
    (getter : σ → Bytes → Option Bytes → σ × Except GoErr Unit) (s : σ) :
    σ × Except GoErr Unit :=
  match keys with
  | [] => (s, .ok ())
  | key :: rest =>
    let r := getter s key (lookupKV store key)
    match r.2 with
    | .error e => (r.1, .error e)
    | .ok () => boltBatchGet store rest getter r.1

/-- Callback instrumentation: a getter that records every invocation, in
order, and always succeeds. -/
def logGetter (s : List (Bytes × Option Bytes)) (key : Bytes) (v : Option Bytes) :
    List (Bytes × Option Bytes) × Except GoErr Unit :=
  (s ++ [(key, v)], .ok ())

/-- Characterization of the callback invocations the v2/v3
LevelDB.BatchGet performs when the callback keeps succeeding: every key
in input order, up to and including the first absent one, at which the
iteration ends. -/
def levelBatchVisited (store : Snap) : List Bytes → List (Bytes × Option Bytes)
  | [] => []
  | key :: rest =>
    match lookupKV store key with
    | none => [(key, none)]
    | some v => (key, some v) :: levelBatchVisited store rest

/-- Claim C3 counterexample: the store holds only key 2 (value 9).
Running the v2/v3 LevelDB.BatchGet over the keys 1, 2 with an
always-succeeding recording callback invokes the callback once, for the
absent key 1, and returns success without ever visiting the present key
2 — the claim states a missing key by itself does not end the
iteration. -/
theorem c3_levelbatchget_stops_at_absent_key :
    levelBatchGet [([2], [9])] [[1], [2]] logGetter [] = .ok ([([1], none)], .ok ()) ∧
    levelBatchGet [([2], [9])] [[1], [2]] logGetter []
      ≠ .ok ([([1], none), ([2], some [9])], .ok ()) := by
  refine ⟨rfl, ?_⟩
  decide

/-- Reference semantics written from the amended claim's words,
compared with the loops translated from the source: for each key in
input order, invoke the callback with the stored value or an absent
marker, threading the caller state; stop early exactly to propagate the
first callback failure; a missing key by itself does not end the
iteration. -/
def claimBatchGet {σ : Type} (store : Snap)
    (g : σ → Bytes → Option Bytes → σ × Except GoErr Unit) :
    List Bytes → σ → σ × Except GoErr Unit
  | [], s => (s, .ok ())
  | key :: rest, s =>
    match g s key (lookupKV store key) with
    | (s1, .error e) => (s1, .error e)
    | (s1, .ok ()) => claimBatchGet store g rest s1

/-- Helper for claim C3: for every callback, including failing ones,
the BoltDB.BatchGet loop is exactly the reference semantics of the
amended claim. -/
theorem boltBatchGet_eq_claim {σ : Type} (store : Snap)
    (g : σ → Bytes → Option Bytes → σ × Except GoErr Unit) :
    ∀ (keys : List Bytes) (s : σ),
      boltBatchGet store keys g s = claimBatchGet store g keys s := by
  intro keys
  induction keys with
  | nil => intro s; rfl
  | cons key rest ih =>
    intro s
    rw [boltBatchGet, claimBatchGet]
    rcases hg : g s key (lookupKV store key) with ⟨s1, e⟩
    cases e with
    | error err => simp [hg]
    | ok u => cases u; simp [hg, ih s1]

/-- Helper for claim C3: for every callback, including failing ones,
the v2/v3 LevelDB.BatchGet agrees with the reference semantics as long
as every requested key is non-empty and present in the store. -/
theorem levelBatchGet_eq_claim {σ : Type} (store : Snap)
    (g : σ → Bytes → Option Bytes → σ × Except GoErr Unit) :
    ∀ (keys : List Bytes) (s : σ),
      (∀ k ∈ keys, k ≠ ([] : Bytes)) →
      (∀ k ∈ keys, lookupKV store k ≠ none) →
      levelBatchGet store keys g s = .ok (claimBatchGet store g keys s) := by
  intro keys
  induction keys with
  | nil => intro s _ _; rfl
  | cons key rest ih =>
    intro s hne hp
    have hk : key ≠ ([] : Bytes) := hne key (List.mem_cons_self key rest)
    have hkp := hp key (List.mem_cons_self key rest)
    rw [levelBatchGet, if_neg hk, claimBatchGet]
    cases hv : lookupKV store key with
    | none => exact absurd hv hkp
    | some v =>
      rcases hg : g s key (some v) with ⟨s1, e⟩
      cases e with
      | error err => simp [hv, hg]
      | ok u =>
        cases u
        simp only [hv, hg]
        rw [ih s1 (fun k hk2 => hne k (List.mem_cons_of_mem key hk2))
            (fun k hk2 => hp k (List.mem_cons_of_mem key hk2))]

/-- Helper for claim C3: the v2/v3 LevelDB.BatchGet with a recording
callback visits the keys in input order only up to and including the
first absent key. -/
theorem levelBatchGet_log (store : Snap) (keys : List Bytes)
    (hne : ∀ k ∈ keys, k ≠ ([] : Bytes)) :
    ∀ acc : List (Bytes × Option Bytes),
      levelBatchGet store keys logGetter acc
        = .ok (acc ++ levelBatchVisited store keys, .ok ()) := by
  induction keys with
  | nil => intro acc; simp [levelBatchGet, levelBatchVisited]
  | cons key rest ih =>
    intro acc
    have hk : key ≠ [] := hne key (List.mem_cons_self key rest)
    rw [levelBatchGet, if_neg hk]
    cases hv : lookupKV store key with
    | none => simp [logGetter, levelBatchVisited, hv]
    | some v =>
      simp only [logGetter]
      rw [ih (fun k hk2 => hne k (List.mem_cons_of_mem key hk2)) (acc ++ [(key, some v)])]
      simp [levelBatchVisited, hv]

/-- Claim C3 (amended), stated for every callback, threading arbitrary
caller state, and for non-empty keys (the LevelDB loop panics on an
empty key): BatchGet reads all keys against one snapshot; the BoltDB
backend invokes the callback once per key in input order with the
stored value or an absent marker and stops early exactly to propagate
the first callback failure — a missing key does not end the iteration
(first conjunct: the loop equals the reference semantics of the claim
for every callback). The LevelDB backend behaves identically as long as
every requested key is present (second conjunct), but on reaching the
first absent key it invokes the callback with the absent marker and
returns that callback's state and result immediately, never visiting
the keys after it (third conjunct); with the recording callback it
therefore visits exactly the keys up to and including the first absent
one (fourth conjunct). -/
theorem c3_batchget_contract {σ : Type} (store : Snap) (keys : List Bytes)
    (g : σ → Bytes → Option Bytes → σ × Except GoErr Unit) (s : σ)
    (acc : List (Bytes × Option Bytes))
    (hne : ∀ k ∈ keys, k ≠ ([] : Bytes)) :
    boltBatchGet store keys g s = claimBatchGet store g keys s ∧
    ((∀ k ∈ keys, lookupKV store k ≠ none) →
      levelBatchGet store keys g s = .ok (claimBatchGet store g keys s)) ∧
    (∀ key, lookupKV store key = none → key ≠ ([] : Bytes) →
      levelBatchGet store (key :: keys) g s = .ok (g s key none)) ∧
    levelBatchGet store keys logGetter acc
        = .ok (acc ++ levelBatchVisited store keys, .ok ()) := by
  refine ⟨boltBatchGet_eq_claim store g keys s,
    fun hp => levelBatchGet_eq_claim store g keys s hne hp,
    fun key ha hk => ?_,
    levelBatchGet_log store keys hne acc⟩
  rw [levelBatchGet, if_neg hk, ha]

/-- Witness for claim C3 at a concrete input, with the recording
callback as the arbitrary callback. -/
theorem c3_batchget_contract_witness :
    (∀ k ∈ ([[2]] : List Bytes), k ≠ ([] : Bytes)) ∧
    (boltBatchGet [([2], [9])] [[2]] logGetter []
        = claimBatchGet [([2], [9])] logGetter [[2]] [] ∧
      ((∀ k ∈ ([[2]] : List Bytes), lookupKV [([2], [9])] k ≠ none) →
        levelBatchGet [([2], [9])] [[2]] logGetter []
          = .ok (claimBatchGet [([2], [9])] logGetter [[2]] [])) ∧
      (∀ key, lookupKV [([2], [9])] key = none → key ≠ ([] : Bytes) →
        levelBatchGet [([2], [9])] (key :: [[2]]) logGetter []
          = .ok (logGetter [] key none)) ∧
      levelBatchGet [([2], [9])] [[2]] logGetter []
          = .ok ([] ++ levelBatchVisited [([2], [9])] [[2]], .ok ())) :=
  ⟨by decide, c3_batchget_contract [([2], [9])] [[2]] logGetter [] [] (by decide)⟩

/-- LevelDB.Get of the v2/v3 revision (src/leveldb.go lines 896-921):
create a fresh snapshot, take the address of the first key byte (panics
on an empty key), run leveldb_get; when the value is nil, return found
false together with the result of invoking the callback on nil; when a
value is present, invoke the callback on it and return found true with
the callback result. -/
def levelGet {σ : Type} (store : Snap) (key : Bytes)
    (getter : σ → Option Bytes → σ × Except GoErr Unit) (s : σ) :
    Except GoPanic (σ × Bool × Except GoErr Unit) :=
  if key = [] then .error .indexOutOfRange
  else
    match lookupKV store key with
    | none =>
      let r := getter s none
      .ok (r.1, false, r.2)
    | some v =>
      let r := getter s (some v)
      .ok (r.1, true, r.2)

/-- BoltDB.Get (src/boltdb.go lines 59-71): inside one read transaction
run the bucket lookup; when the value is nil, set found false and return
a nil error without invoking the callback; otherwise set found true and
return the result of the callback on the value. -/
def boltGet {σ : Type} (store : Snap) (key : Bytes)
    (getter : σ → Option Bytes → σ × Except GoErr Unit) (s : σ) :
    σ × Bool × Except GoErr Unit :=
  match lookupKV store key with
  | none => (s, false, .ok ())
  | some v =>
    let r := getter s (some v)
    (r.1, true, r.2)

/-- Callback instrumentation for the single-key facade Get: records
every value the callback receives and always succeeds. -/
def logGetter1 (s : List (Option Bytes)) (v : Option Bytes) :
    List (Option Bytes) × Except GoErr Unit :=
  (s ++ [v], .ok ())

/-- Claim C4 counterexample: on the empty store the BoltDB facade Get of
key 1 returns found false without ever invoking the callback — the
recorded invocation list stays empty, where the claim demands one
invocation with the absent marker. -/
theorem c4_boltget_skips_callback :
    boltGet ([] : Snap) [1] logGetter1 [] = ([], false, .ok ()) ∧
    (boltGet ([] : Snap) [1] logGetter1 []).1 ≠ [none] := by
  refine ⟨rfl, ?_⟩
  decide

/-- Claim C4 (amended): the facade Get returns a found flag plus an
error in both backends, but only the LevelDB backend still invokes the
callback with an absent marker when the key (non-empty; an empty key
panics there) is not found; the BoltDB backend returns found false with
a nil error without invoking the callback, so caller side effects do
not run uniformly across backends. -/
theorem c4_get_not_found_callback {σ : Type} (store bstore : Snap) (key : Bytes)
    (getter : σ → Option Bytes → σ × Except GoErr Unit) (s : σ)
    (hk : key ≠ [])
    (habs : lookupKV store key = none)
    (habsb : lookupKV bstore key = none) :
    levelGet store key getter s
        = .ok ((getter s none).1, false, (getter s none).2) ∧
    boltGet bstore key getter s = (s, false, .ok ()) := by
  constructor
  · rw [levelGet, if_neg hk, habs]
  · rw [boltGet, habsb]

/-- Witness for claim C4 at a concrete input. -/
theorem c4_get_not_found_callback_witness :
    (([1] : Bytes) ≠ [] ∧ lookupKV [] [1] = none ∧ lookupKV [] [1] = none) ∧
    (levelGet ([] : Snap) [1] logGetter1 []
        = .ok ((logGetter1 [] none).1, false, (logGetter1 [] none).2) ∧
      boltGet ([] : Snap) [1] logGetter1 [] = ([], false, .ok ())) :=
  ⟨⟨by decide, by decide, by decide⟩,
    c4_get_not_found_callback [] [] [1] logGetter1 []
      (by decide) (by decide) (by decide)⟩

/-- A native cursor over the sorted committed contents of a snapshot.
Both engines expose the same external stepping primitives
(leveldb_iter_seek / seek_to_first / seek_to_last / next / prev and the
bolt Cursor methods), which the design treats as already-correct calls
over the sorted key space: the cursor is either positioned at an index
of the sorted list or invalid (exhausted). -/
structure Cursor where
  snap : Snap
  pos : Option Nat
deriving DecidableEq, Repr

/-- Current entry of a cursor, or none when the cursor is invalid. -/
def cursorEntry (c : Cursor) : Option (Bytes × Bytes) :=
  match c.pos with
  | none => none
  | some i => c.snap.get? i

/-- Index of the first entry whose key is not below the target, equal to
the length when every key is below it (the seek lands past the end). -/
def seekIdx : Snap → Bytes → Nat
  | [], _ => 0
  | e :: rest, target => if bytesLt e.1 target then seekIdx rest target + 1 else 0

/-- Native seek: position at the first key at or after the target, or
become invalid; returns the new position and the entry under it. -/
def cursorSeek (c : Cursor) (target : Bytes) : Cursor × Option (Bytes × Bytes) :=
  let i := seekIdx c.snap target
  if i < c.snap.length then
    let c1 : Cursor := { c with pos := some i }
    (c1, cursorEntry c1)
  else ({ c with pos := none }, none)

/-- Native first: position at the smallest key, or invalid when empty. -/
def cursorFirst (c : Cursor) : Cursor × Option (Bytes × Bytes) :=
  if c.snap.length = 0 then ({ c with pos := none }, none)
  else
    let c1 : Cursor := { c with pos := some 0 }
    (c1, cursorEntry c1)

/-- Native last: position at the largest key, or invalid when empty. -/
def cursorLast (c : Cursor) : Cursor × Option (Bytes × Bytes) :=
  if c.snap.length = 0 then ({ c with pos := none }, none)
  else
    let c1 : Cursor := { c with pos := some (c.snap.length - 1) }
    (c1, cursorEntry c1)

/-- Native next, matching levelIterator.Next (src/leveldb.go lines
1000-1009) and the bolt Cursor step: an invalid cursor stays invalid and
returns nil; otherwise step forward and return the new entry, or become
invalid past the end. -/
def cursorNext (c : Cursor) : Cursor × Option (Bytes × Bytes) :=
  match c.pos with
  | none => (c, none)
  | some i =>
    if i + 1 < c.snap.length then
      let c1 : Cursor := { c with pos := some (i + 1) }
      (c1, cursorEntry c1)
    else ({ c with pos := none }, none)

/-- Native prev, matching levelIterator.Prev (src/leveldb.go lines
1011-1020): an invalid cursor stays invalid and returns nil; otherwise
step backward and return the new entry, or become invalid before the
first entry. -/
def cursorPrev (c : Cursor) : Cursor × Option (Bytes × Bytes) :=
  match c.pos with
  | none => (c, none)
  | some i =>
    if i = 0 then ({ c with pos := none }, none)
    else
      let c1 : Cursor := { c with pos := some (i - 1) }
      (c1, cursorEntry c1)

/-- boltIterator.Prev (src/boltdb.go lines 141-146 and
src/unnamed/part_001 lines 126-131): on an open iterator the body
delegates to the cursor Next call, not to a predecessor step. -/
def boltIterPrev (c : Cursor) : Cursor × Option (Bytes × Bytes) :=
  cursorNext c

/-- levelIterator.Seek (src/leveldb.go lines 974-982): take the address
of the first key byte (panics on an empty key), then delegate to the
native seek. -/
def levelIterSeek (c : Cursor) (key : Bytes) :
    Except GoPanic (Cursor × Option (Bytes × Bytes)) :=
  if key = [] then .error .indexOutOfRange
  else .ok (cursorSeek c key)

/-- Store used by the ordering-law evaluation: keys 97 and 98 (ascii a
and b) in sorted order, with values 120 and 121. -/
def storeAB : Snap := [([97], [120]), ([98], [121])]

/-- Claim C5 (code bug evaluation): on the two-key store, ascending
traversal (First then Next) visits key 97 before key 98 in both
backends, and the LevelDB descending traversal (Last then Prev) visits
key 98 then 97; but the BoltDB descending traversal is broken, because
boltIterator.Prev delegates to the cursor Next call: after Last it
immediately reports exhaustion and key 97 is never visited. -/
theorem c5_descending_traversal_bolt_defect :
    (cursorFirst ⟨storeAB, none⟩).2 = some ([97], [120]) ∧
    (cursorNext (cursorFirst ⟨storeAB, none⟩).1).2 = some ([98], [121]) ∧
    (cursorLast ⟨storeAB, none⟩).2 = some ([98], [121]) ∧
    (cursorPrev (cursorLast ⟨storeAB, none⟩).1).2 = some ([97], [120]) ∧
    (boltIterPrev (cursorLast ⟨storeAB, none⟩).1).2 = none := by
  refine ⟨rfl, rfl, rfl, rfl, rfl⟩

/-- Claim C10: with a zero-length key the v2/v3 LevelDB facade Get, the
levelIterator Seek and the levelTxn Put all take the address of the
first byte of the key and panic with index out of range instead of
returning a not-found result or a storage error; levelTxn Put with a
zero-length value panics the same way. -/
theorem c10_empty_slice_panics {σ : Type} (store : Snap)
    (getter : σ → Option Bytes → σ × Except GoErr Unit) (s : σ)
    (c : Cursor) (t : LevelTxn) (key value : Bytes) :
    levelGet store ([] : Bytes) getter s = .error GoPanic.indexOutOfRange ∧
    levelIterSeek c ([] : Bytes) = .error GoPanic.indexOutOfRange ∧
    levelTxnPut t ([] : Bytes) value = .error GoPanic.indexOutOfRange ∧
    levelTxnPut t key ([] : Bytes) = .error GoPanic.indexOutOfRange := by
  refine ⟨rfl, rfl, rfl, ?_⟩
  rw [levelTxnPut]
  by_cases hk : key = ([] : Bytes)
  · rw [if_pos hk]
  · rw [if_neg hk, if_pos rfl]

/-- Discriminator: whether a Go result is an error return (any message). -/
def isErrResult : Except GoErr Unit → Bool
  | .error _ => true
  | .ok _ => false

/-- Termination lifecycle of the v1 levelTxn (src/leveldb.go lines
321-355): closed models the batch field being nil after close(); the
counters record how often db.writer.Unlock ran and how often close()
destroyed the native batch and write options and closed the bound
iterator (releasing its snapshot). -/
structure LevelTxn1Life where
  closed : Bool
  writable : Bool
  unlocks : Nat
  closes : Nat
deriving DecidableEq, Repr

/-- levelTxn.Rollback of the v1 revision (lines 334-343): an already
closed transaction fails with the unopened-transaction error and touches
nothing; otherwise unlock the writer when writable and run close(). -/
def levelRollback1 (t : LevelTxn1Life) : LevelTxn1Life × Except GoErr Unit :=
  if t.closed then (t, .error "rollback unopened transaction")
  else ({ t with closed := true,
                 unlocks := t.unlocks + (if t.writable then 1 else 0),
                 closes := t.closes + 1 }, .ok ())

/-- levelTxn.Commit of the v1 revision (lines 345-355): an already
closed transaction fails with the unopened-transaction error and touches
nothing; otherwise apply the batch (external engine write, modelled as
succeeding), unlock the writer unconditionally and run close(). -/
def levelCommit1 (t : LevelTxn1Life) : LevelTxn1Life × Except GoErr Unit :=
  if t.closed then (t, .error "commit unopened transaction")
  else ({ t with closed := true,
                 unlocks := t.unlocks + 1,
                 closes := t.closes + 1 }, .ok ())

/-- Termination lifecycle of a boltTxn (src/boltdb.go lines 183-199):
closed models the tx field being nil; nativeEnds counts the native
tx.Rollback and tx.Commit calls. -/
structure BoltTxnLife where
  closed : Bool
  nativeEnds : Nat
deriving DecidableEq, Repr

/-- boltTxn.Rollback (src/boltdb.go lines 183-190): on a closed
transaction return a nil error without touching the native transaction;
otherwise end it natively and clear the tx field. -/
def boltTxnRollback (t : BoltTxnLife) : BoltTxnLife × Except GoErr Unit :=
  if t.closed then (t, .ok ())
  else ({ closed := true, nativeEnds := t.nativeEnds + 1 }, .ok ())

/-- boltTxn.Commit (src/boltdb.go lines 192-199): same guard shape as
Rollback; on a closed transaction return a nil error. -/
def boltTxnCommit (t : BoltTxnLife) : BoltTxnLife × Except GoErr Unit :=
  if t.closed then (t, .ok ())
  else ({ closed := true, nativeEnds := t.nativeEnds + 1 }, .ok ())

/-- Termination lifecycle of the v2/v3 levelTxn (src/leveldb.go lines
1085-1107): no guard exists; terminated records whether the writer
mutex was already released and the native batch destroyed by a previous
Commit or Rollback. -/
structure LevelTxn3Life where
  terminated : Bool
  unlocks : Nat
  closes : Nat
deriving DecidableEq, Repr

/-- levelTxn.Rollback of the v2/v3 revision (lines 1095-1099): its first
statement unlocks the writer mutex unconditionally, so a second call
raises the fatal unlock-of-unlocked-mutex runtime error instead of
returning a transaction-closed error. -/
def levelRollback3 (t : LevelTxn3Life) :
    Except GoPanic (LevelTxn3Life × Except GoErr Unit) :=
  if t.terminated then .error GoPanic.unlockOfUnlockedMutex
  else .ok ({ terminated := true, unlocks := t.unlocks + 1,
              closes := t.closes + 1 }, .ok ())

/-- levelTxn.Commit of the v2/v3 revision (lines 1101-1107): no guard;
on a second call leveldb_write runs on the batch already destroyed by
close(), native undefined behaviour modelled as a crash. -/
def levelCommit3 (t : LevelTxn3Life) :
    Except GoPanic (LevelTxn3Life × Except GoErr Unit) :=
  if t.terminated then .error (GoPanic.message "leveldb_write on destroyed write batch")
  else .ok ({ terminated := true, unlocks := t.unlocks + 1,
              closes := t.closes + 1 }, .ok ())

/-- Claim C6 counterexample: a boltTxn that was already rolled back
accepts a second Rollback with a nil error (and no error message at
all), where the claim demands a transaction-closed failure. -/
theorem c6_bolt_double_rollback_is_silent :
    boltTxnRollback (boltTxnRollback ⟨false, 0⟩).1 = (⟨true, 1⟩, .ok ()) ∧
    isErrResult (boltTxnRollback (boltTxnRollback ⟨false, 0⟩).1).2 = false := by
  refine ⟨rfl, rfl⟩

/-- Claim C6 (amended): only the v1 levelTxn behaves as claimed — a
second Commit or Rollback fails with an unopened-transaction error and
performs no further unlock or release. The boltTxn returns a nil error
on double termination (a silent no-op that does not end the native
transaction again), and the v2/v3 levelTxn has no guard at all: a
second Rollback unlocks the already-released writer mutex (fatal
runtime error) and a second Commit writes a destroyed batch. -/
theorem c6_double_termination :
    levelRollback1 ⟨false, true, 0, 0⟩ = (⟨true, true, 1, 1⟩, .ok ()) ∧
    levelRollback1 ⟨true, true, 1, 1⟩
        = (⟨true, true, 1, 1⟩, .error "rollback unopened transaction") ∧
    levelCommit1 ⟨true, true, 1, 1⟩
        = (⟨true, true, 1, 1⟩, .error "commit unopened transaction") ∧
    boltTxnRollback ⟨false, 0⟩ = (⟨true, 1⟩, .ok ()) ∧
    boltTxnRollback ⟨true, 1⟩ = (⟨true, 1⟩, .ok ()) ∧
    boltTxnCommit ⟨true, 1⟩ = (⟨true, 1⟩, .ok ()) ∧
    levelRollback3 ⟨false, 0, 0⟩ = .ok (⟨true, 1, 1⟩, .ok ()) ∧
    levelRollback3 ⟨true, 1, 1⟩ = .error GoPanic.unlockOfUnlockedMutex ∧
    levelCommit3 ⟨true, 1, 1⟩
        = .error (GoPanic.message "leveldb_write on destroyed write batch") := by
  refine ⟨rfl, rfl, rfl, rfl, rfl, rfl, rfl, rfl, rfl⟩

/-- LevelDB.WriteTo of every revision (src/leveldb.go lines 858-860,
481-483, 113-115): the body is a single panic call; no byte count and
no Go error is ever returned. -/
def levelWriteTo : Except GoPanic (Nat × Except GoErr Unit) :=
  .error (GoPanic.message "LevelDB: WriteTo not implemented")

/-- Models the native bolt tx.WriteTo primitive (external, treated as
correct): serialize the full committed contents to the sink. The
on-disk format is engine-defined and opaque to this layer; the model
uses a plain concatenation of the entries. -/
def boltNativeWriteTo (store : Snap) : Bytes :=
  store.flatMap (fun e => e.1 ++ e.2)

/-- BoltDB.WriteTo (src/boltdb.go lines 96-102): run the native
tx.WriteTo inside one read transaction and return the bytes written to
the sink, their count and the propagated error. -/
def boltWriteTo (store : Snap) : Bytes × Nat × Except GoErr Unit :=
  (boltNativeWriteTo store, (boltNativeWriteTo store).length, .ok ())

/-- Discriminator: whether a LevelDB WriteTo outcome is a normal Go
error return (as opposed to a panic or a success). -/
def isGoErrorReturn : Except GoPanic (Nat × Except GoErr Unit) → Bool
  | .ok (_, .error _) => true
  | _ => false

/-- Claim C8 counterexample: LevelDB.WriteTo does not fail with a
not-implemented error — it panics with that message, so no error value
is ever returned to the caller. -/
theorem c8_level_writeto_panics :
    levelWriteTo = .error (GoPanic.message "LevelDB: WriteTo not implemented") ∧
    isGoErrorReturn levelWriteTo = false := by
  refine ⟨rfl, rfl⟩

/-- Claim C8 (amended): on the engine without native serialization
support the facade WriteTo panics with a not-implemented message
(producing no output and returning no error value), while the B-tree
backing streams the full committed contents through the native
tx.WriteTo and returns the byte count. -/
theorem c8_writeto_contract (store : Snap) :
    levelWriteTo = .error (GoPanic.message "LevelDB: WriteTo not implemented") ∧
    boltWriteTo store
        = (boltNativeWriteTo store, (boltNativeWriteTo store).length, .ok ()) := by
  refine ⟨rfl, rfl⟩

/-- Native handles owned by a LevelDB instance: true means the native
object is still live (not yet destroyed). -/
structure LevelHandles where
  wopts : Bool
  opts : Bool
  tree : Bool
deriving DecidableEq, Repr

/-- LevelDB.Close of the v3 revision (src/leveldb.go lines 849-854):
destroy the three native handles unconditionally and return nil. The Go
fields are not cleared, so a repeated call destroys already-freed
native objects; the middle component counts those double frees. -/
def levelClose_v3 (db : LevelHandles) : LevelHandles × Nat × Except GoErr Unit :=
  (⟨false, false, false⟩,
   (if db.wopts then 0 else 1) + (if db.opts then 0 else 1)
     + (if db.tree then 0 else 1),
   .ok ())

/-- LevelDB.Close of the v1/v2 revisions (src/leveldb.go lines 98-109,
466-477): guarded by a nil check on the tree field; the first call
destroys the three handles and clears the fields, a repeated call
returns an error without touching anything. The pair is the open flag
and the running count of native destroy calls. -/
def levelClose_v1 (isOpen : Bool) (frees : Nat) : (Bool × Nat) × Except GoErr Unit :=
  if isOpen then ((false, frees + 3), .ok ())
  else ((false, frees), .error "closing unopened LevelDB instance")

/-- BoltDB.Close of src/unnamed/part_001 (lines 84-91): guarded by a nil
check on the tree field; a repeated call returns an error without
calling the native close again. -/
def boltClose_v2 (isOpen : Bool) (nativeCloses : Nat) :
    (Bool × Nat) × Except GoErr Unit :=
  if isOpen then ((false, nativeCloses + 1), .ok ())
  else ((false, nativeCloses), .error "closing unopened BoltDB instance")

/-- BoltDB.Close of src/boltdb.go (line 106): delegate to the native
close unguarded on every call; the native bolt close is an external
primitive treated as idempotent and error-free. -/
def boltClose_v1 (nativeCloses : Nat) : Nat × Except GoErr Unit :=
  (nativeCloses + 1, .ok ())

/-- Claim C9 counterexample: a second v3 LevelDB.Close destroys all
three already-freed native handles again (three double frees) and still
returns a nil error, where the claim demands an error and no double
free. -/
theorem c9_second_close_double_frees :
    levelClose_v3 (levelClose_v3 ⟨true, true, true⟩).1
        = (⟨false, false, false⟩, 3, .ok ()) ∧
    isErrResult (levelClose_v3 (levelClose_v3 ⟨true, true, true⟩).1).2.2 = false := by
  refine ⟨rfl, rfl⟩

/-- Claim C9 (amended): the guarded implementations (v1/v2 LevelDB.Close
and part_001 BoltDB.Close) release the native resources once and fail a
second Close with an error without re-destroying anything; the v3
LevelDB.Close re-destroys its three native handles on a second call
(double free) while returning nil, and the src/boltdb.go Close
delegates unguarded to the engine close and returns its nil result. -/
theorem c9_close_idempotence :
    levelClose_v3 ⟨true, true, true⟩ = (⟨false, false, false⟩, 0, .ok ()) ∧
    levelClose_v3 (levelClose_v3 ⟨true, true, true⟩).1
        = (⟨false, false, false⟩, 3, .ok ()) ∧
    levelClose_v1 true 0 = ((false, 3), .ok ()) ∧
    levelClose_v1 false 3 = ((false, 3), .error "closing unopened LevelDB instance") ∧
    boltClose_v2 true 0 = ((false, 1), .ok ()) ∧
    boltClose_v2 false 1 = ((false, 1), .error "closing unopened BoltDB instance") ∧
    boltClose_v1 0 = (1, .ok ()) ∧
    boltClose_v1 1 = (2, .ok ()) := by
  refine ⟨rfl, rfl, rfl, rfl, rfl, rfl, rfl, rfl⟩

end Backend
